import Mathlib

/-
Shallow embedding of src/streamlit_app.py (Karma Yoga journal report wizard).

The app is a Streamlit multi-step form.  Streamlit session state is modelled
as an explicit record; each form submit handler becomes a pure state
transition.  The Text-Generation Backend (the hosted LLM behind
`journal_chain.run` and the map-reduce summarize chain) is modelled as a
function parameter; every transition additionally returns the list of prompts
it sent to the backend, so that call-count properties are statable.  A Python
exception escaping a handler is modelled as an `Except.error` result that
leaves the session state exactly as it was when the exception was raised.
-/

namespace KYReport

/-- A calendar date, as produced by `st.date_input`. -/
structure Date where
  year : Nat
  month : Nat
  day : Nat
deriving DecidableEq, Repr

/-- Failure modes of the Text-Generation Backend. -/
inductive BackendError where
  | quotaExceeded
  | unavailable
deriving DecidableEq, Repr

/-- Failure of PDF text extraction (pdfminer raising on a malformed file). -/
inductive ExtractionError where
  | malformed
deriving DecidableEq, Repr

/-- The Streamlit `st.session_state` fields used by the app.  A field that a
Python handler has not yet assigned is `none`.  `step` is the wizard step
counter initialised to 1. -/
structure SessionState where
  step : Nat
  api_key : Option String
  project : Option String
  visit_number : Option String
  previous_report_summary : Option String
  media_files : Option (List String)
  current_visit_details : Option String
  visit_date : Option Date
  media_summary : Option String
  report : Option String
deriving DecidableEq, Repr

/-- The initial session: `st.session_state.step = 1`, nothing else set. -/
def initialSession : SessionState :=
  { step := 1, api_key := none, project := none, visit_number := none,
    previous_report_summary := none, media_files := none,
    current_visit_details := none, visit_date := none,
    media_summary := none, report := none }

/-! ## Summarizer chunking

`summarize_pdf_text` calls `CharacterTextSplitter(chunk_size=2000,
chunk_overlap=200).split_text`.  The splitter is a third-party library, not
part of this repository.  Modelled from the spec: the Summarizer splits the
input into overlapping fixed-size chunks preserving order, with chunk size
2000 and overlap 200 (so consecutive chunk start positions differ by
2000 - 200 = 1800).  The constants below are the literal arguments passed in
`streamlit_app.py`. -/

/-- Chunk size constant passed to the splitter in `summarize_pdf_text`. -/
def chunk_size : Nat := 2000

/-- Chunk overlap constant passed to the splitter in `summarize_pdf_text`. -/
def chunk_overlap : Nat := 200

/-- Distance between consecutive chunk start positions. -/
def chunk_step : Nat := chunk_size - chunk_overlap

/-- Fuel-indexed chunker: while more than `chunk_size` characters remain,
emit the first `chunk_size` characters and advance by `chunk_step`.  The fuel
argument only forces structural termination; `chars.length` fuel always
suffices. -/
def splitTextFuel : Nat → List Char → List (List Char)
  | 0, chars => [chars]
  | fuel + 1, chars =>
    if chars.length ≤ chunk_size then [chars]
    else chars.take chunk_size :: splitTextFuel fuel (chars.drop chunk_step)

/-- Modelled from the spec: `CharacterTextSplitter.split_text` with the fixed
constants of `summarize_pdf_text` (chunk size 2000, overlap 200), as the spec
describes it: overlapping fixed-size chunks preserving order. -/
def split_text (pdf_text : String) : List String :=
  (splitTextFuel pdf_text.toList.length pdf_text.toList).map
    (fun cs => String.mk cs)

/-- Embedding of `summarize_pdf_text`: split the text into chunks, run the
map-reduce summarize chain (one backend call per chunk, then one combine
call over the partial summaries), and strip the result.  Returns the summary
together with the list of prompts sent to the backend. -/
def summarize_pdf_text (backend : String → String) (pdf_text : String) :
    String × List String :=
  let chunks := split_text pdf_text
  let partials := chunks.map backend
  let combined := String.intercalate "\n\n" partials
  ((backend combined).trim, chunks ++ [combined])

/-- Number of backend invocations performed by a second call of
`summarize_pdf_text` on the same text within one process.  The source keeps
no cache of any kind, so a repeated call re-executes exactly the invocations
of a fresh call. -/
def second_call_invocations (backend : String → String) (pdf_text : String) :
    Nat :=
  (summarize_pdf_text backend pdf_text).2.length

/-! ## Report Composer -/

/-- Zero-pad a number to two digits, as strftime %m / %d do. -/
def pad2 (n : Nat) : String :=
  if n < 10 then "0" ++ toString n else toString n

/-- Zero-pad a number to four digits, as strftime %Y does. -/
def pad4 (n : Nat) : String :=
  if n < 10 then "000" ++ toString n
  else if n < 100 then "00" ++ toString n
  else if n < 1000 then "0" ++ toString n
  else toString n

/-- `visit_date.strftime("%Y-%m-%d")`. -/
def formatDate (d : Date) : String :=
  pad4 d.year ++ "-" ++ pad2 d.month ++ "-" ++ pad2 d.day

/-- The `date_str` computation in `generate_journal_report`: format the date
as YYYY-MM-DD when present, the literal string otherwise. -/
def date_str (visit_date : Option Date) : String :=
  match visit_date with
  | some d => formatDate d
  | none => "No date provided"

/-- The fixed `prompt_text` template of the app with its six fields
interpolated, exactly as `PromptTemplate` renders it for `journal_chain`. -/
def format_prompt (previous_report_summary project visit_number
    current_visit_details media_summary visit_date : String) : String :=
  "\nYou are a world-class social welfare expert with years of experience evaluating field visits. Based on the context provided below, please draft a detailed journal report (500 to 700 words) that convincingly reflects the social impact of the current field visit. The report must be specific and persuasive to a seasoned evaluator. Don\x27t mention any date in the report. Make the output in plural first person (using We/Us)\n\nStructure:\n1. Describe the plan of action for today’s field visit. (Include objectives, goals, and the purpose of your visit.)\n2. Describe the activities carried out to complete the action plan. (Outline the work done during the field visit.)\n3. What did you observe today that you would like to implement in your next field visit?\n4. What are the key learning outcomes from this field visit? (Highlight the lessons learned from the experience.)\n\nContext:\n- Previous Visit Report Summary: "
    ++ previous_report_summary
    ++ "\n- Karma Yoga Project: " ++ project
    ++ "\n- Visit Number: " ++ visit_number
    ++ "\n- Current Visit Details: " ++ current_visit_details
    ++ "\n- Current Visit Media Summary: " ++ media_summary
    ++ "\n- Visit Date: " ++ visit_date
    ++ "\n\nEnsure that your report builds on the previous context, includes details from uploaded media (if any), and is tailored to exhibit strong social impact.\n"

/-- Embedding of `generate_journal_report`: compute `date_str`, render the
prompt template, and run `journal_chain` once.  Returns the backend result
together with the list of prompts sent (always exactly one). -/
def generate_journal_report (backend : String → Except BackendError String)
    (previous_report_summary project visit_number current_visit_details
      media_summary : String) (visit_date : Option Date) :
    Except BackendError String × List String :=
  let date_s := date_str visit_date
  let prompt := format_prompt previous_report_summary project visit_number
    current_visit_details media_summary date_s
  (backend prompt, [prompt])

/-! ## Wizard step submit handlers -/

/-- Step 1 submit handler: reject an empty key (state unchanged, error
surfaced), otherwise store the key and advance to step 2. -/
def api_key_submit (s : SessionState) (api_key : String) : SessionState :=
  if api_key = "" then s
  else { s with api_key := some api_key, step := 2 }

/-- Step 2 submit handler: store project and visit number; a first visit
skips straight to step 4 with an empty previous-report summary, any other
visit goes to step 3. -/
def general_info_submit (s : SessionState) (project visit_number : String) :
    SessionState :=
  let s1 : SessionState :=
    { s with project := some project, visit_number := some visit_number }
  if visit_number = "1st" then
    { s1 with previous_report_summary := some "", step := 4 }
  else
    { s1 with step := 3 }

/-- Step 3 submit handler.  `extractor` models `extract_text_from_pdf`
(pdfminer), which may raise on a malformed file; `summarize` models
`summarize_pdf_text` on the extracted text.  An `Except.error` result models
the Python exception escaping the handler: no state field is assigned and
the step does not advance. -/
def previous_visit_submit (extractor : String → Except ExtractionError String)
    (summarize : String → String) (s : SessionState)
    (previous_pdf : Option String) : Except ExtractionError SessionState :=
  match previous_pdf with
  | some pdf =>
    match extractor pdf with
    | .error e => .error e
    | .ok pdf_text =>
      if pdf_text ≠ "" then
        .ok { s with previous_report_summary := some (summarize pdf_text),
                     step := 4 }
      else
        .ok { s with previous_report_summary := some "", step := 4 }
  | none => .ok { s with previous_report_summary := some "", step := 4 }

/-- The media summary built in the step 4 handler: a listing of the uploaded
file names, or the fixed sentence when no file was uploaded. -/
def mediaSummary (media_files : List String) : String :=
  if media_files ≠ [] then
    "Uploaded media files: " ++ String.intercalate ", " media_files ++ "."
  else
    "No media files provided."

/-- The single prompt a step 4 submission sends to the backend. -/
def submit_prompt (s : SessionState) (media_files : List String)
    (current_visit_details : String) (visit_date : Date) : String :=
  format_prompt (s.previous_report_summary.getD "") (s.project.getD "")
    (s.visit_number.getD "") current_visit_details (mediaSummary media_files)
    (date_str (some visit_date))

/-- Step 4 submit handler: store the submitted fields and the media summary,
then call `generate_journal_report`; on success store the report and advance
to step 5, on a backend exception the fields already assigned keep their new
values but neither `report` nor `step` is touched.  The second component is
the list of prompts sent to the backend during the submission. -/
def current_visit_submit (backend : String → Except BackendError String)
    (s : SessionState) (media_files : List String)
    (current_visit_details : String) (visit_date : Date) :
    SessionState × List String :=
  let s1 : SessionState :=
    { s with media_files := some media_files,
             current_visit_details := some current_visit_details,
             visit_date := some visit_date }
  let media_summary := mediaSummary media_files
  let s2 : SessionState := { s1 with media_summary := some media_summary }
  let gen := generate_journal_report backend
    (s2.previous_report_summary.getD "") (s2.project.getD "")
    (s2.visit_number.getD "") current_visit_details media_summary
    (some visit_date)
  match gen.1 with
  | .ok report => ({ s2 with report := some report, step := 5 }, gen.2)
  | .error _ => (s2, gen.2)

/-- The download button offered at step 5. -/
structure DownloadArtifact where
  label : String
  data : String
  file_name : String
  mime : String
deriving DecidableEq, Repr

/-- Embedding of the step 5 `st.download_button` call. -/
def step5_download_button (report : String) : DownloadArtifact :=
  { label := "Download Report as Text", data := report,
    file_name := "journal_report.txt", mime := "text/plain" }

/-! ## Concrete data for witnesses and counterexamples -/

/-- A backend that always succeeds with a fixed report. -/
def backend_ok : String → Except BackendError String :=
  fun _ => Except.ok "GENERATED REPORT"

/-- A backend that always fails with a quota error. -/
def backend_quota : String → Except BackendError String :=
  fun _ => Except.error BackendError.quotaExceeded

/-- The identity function as a stand-in summarization backend. -/
def backend_id : String → String := fun s => s

/-- An extractor that raises on every file. -/
def extractor_fail : String → Except ExtractionError String :=
  fun _ => Except.error ExtractionError.malformed

/-- An extractor that returns empty text on every file. -/
def extractor_empty : String → Except ExtractionError String :=
  fun _ => Except.ok ""

/-- The identity function as a stand-in summarizer for concrete runs. -/
def summarize_id : String → String := fun s => s

/-- A sample visit date. -/
def sampleDate : Date := { year := 2025, month := 4, day := 7 }

/-- A session that has reached step 3 (prior-visit upload). -/
def sessionAtStep3 : SessionState :=
  { initialSession with
    step := 3, api_key := some "key",
    project := some "Tree Plantation Drive", visit_number := some "3rd" }

/-- A session that has reached step 4 (current-visit details). -/
def sessionAtStep4 : SessionState :=
  { initialSession with
    step := 4, api_key := some "key",
    project := some "Health Camp", visit_number := some "2nd",
    previous_report_summary := some "" }

/-! ## Chunking lemma -/

/-- Chunk `i` of the fuel-indexed chunker starts at position
`chunk_step * i` and holds the next `chunk_size` characters, provided the
fuel covers the input length. -/
lemma splitTextFuel_getD (fuel : Nat) :
    ∀ (chars : List Char), chars.length ≤ chunk_step * fuel + chunk_size →
    ∀ i, i < (splitTextFuel fuel chars).length →
      (splitTextFuel fuel chars).getD i [] =
        (chars.drop (chunk_step * i)).take chunk_size := by
  induction fuel with
  | zero =>
    intro chars hlen i hi
    have hle : chars.length ≤ chunk_size := by
      simp only [Nat.mul_zero, Nat.zero_add] at hlen
      exact hlen
    simp only [splitTextFuel, List.length_singleton] at hi
    interval_cases i
    simp only [splitTextFuel, Nat.mul_zero, List.drop_zero,
      List.take_of_length_le hle]
    rfl
  | succ fuel ih =>
    intro chars hlen i hi
    by_cases hle : chars.length ≤ chunk_size
    · simp only [splitTextFuel, if_pos hle, List.length_singleton] at hi
      interval_cases i
      simp only [splitTextFuel, if_pos hle, Nat.mul_zero, List.drop_zero,
        List.take_of_length_le hle]
      rfl
    · simp only [splitTextFuel, if_neg hle, List.length_cons] at hi ⊢
      match i with
      | 0 =>
        simp only [Nat.mul_zero, List.drop_zero, List.getD_cons_zero]
      | i + 1 =>
        have hlen' : (chars.drop chunk_step).length ≤
            chunk_step * fuel + chunk_size := by
          rw [List.length_drop]
          simp only [chunk_step, chunk_size, chunk_overlap] at hlen ⊢
          omega
        have hi' : i < (splitTextFuel fuel (chars.drop chunk_step)).length := by
          omega
        rw [List.getD_cons_succ, ih (chars.drop chunk_step) hlen' i hi',
          List.drop_drop]
        congr 2
        ring

/-! ## Claim theorems -/

/-- C1 counterexample: with `current_visit_details` equal to the empty
string, the step 4 submit handler still reaches the Report Composer — it
sends one prompt to the backend, stores the generated report and advances to
step 5.  The claimed validation gate does not exist in the code. -/
theorem empty_details_still_generates :
    (current_visit_submit backend_ok sessionAtStep4 [] "" sampleDate).2.length
      = 1 ∧
    (current_visit_submit backend_ok sessionAtStep4 [] "" sampleDate).1.step
      = 5 ∧
    (current_visit_submit backend_ok sessionAtStep4 [] "" sampleDate).1.report
      = some "GENERATED REPORT" :=
  ⟨rfl, rfl, rfl⟩

/-- C1 amended: the step 4 submit handler invokes the Report Composer on
every submission, including when `current_visit_details` is the empty
string; there is no emptiness validation. -/
theorem submit_always_invokes_composer
    (backend : String → Except BackendError String) (s : SessionState)
    (media_files : List String) (visit_date : Date) :
    (current_visit_submit backend s media_files "" visit_date).2.length = 1 := by
  unfold current_visit_submit generate_journal_report
  dsimp only
  split <;> rfl

/-- C2 counterexample: a second call of `summarize_pdf_text` on the text
"hello" performs 2 backend invocations (one map call for the single chunk
plus one combine call), not zero: the source keeps no memo of any kind. -/
theorem second_call_reinvokes_backend :
    second_call_invocations backend_id "hello" = 2 ∧
    second_call_invocations backend_id "hello" ≠ 0 := by
  constructor
  · rfl
  · decide

/-- C2 amended: `summarize_pdf_text` is not memoized — every call on a text,
including a repeated call on the same text within one process, performs one
backend invocation per chunk plus one combine invocation, hence always at
least one. -/
theorem summarizer_not_memoized (backend : String → String)
    (pdf_text : String) :
    second_call_invocations backend pdf_text = (split_text pdf_text).length + 1 ∧
    0 < second_call_invocations backend pdf_text := by
  constructor
  · simp [second_call_invocations, summarize_pdf_text]
  · simp [second_call_invocations, summarize_pdf_text]

/-- C3 counterexample: when the backend fails with `QuotaExceeded`, the
step 4 submission issues exactly one backend call (no retry is ever made),
the step stays at 4 (no credential re-entry prompt — step 1 is never
re-entered) and no report is stored.  The claimed retry-with-new-credential
branch does not exist in the code. -/
theorem quota_failure_single_call_no_reprompt :
    (current_visit_submit backend_quota sessionAtStep4 []
      "Distributed medicine" sampleDate).2.length = 1 ∧
    (current_visit_submit backend_quota sessionAtStep4 []
      "Distributed medicine" sampleDate).1.step = 4 ∧
    (current_visit_submit backend_quota sessionAtStep4 []
      "Distributed medicine" sampleDate).1.report = none :=
  ⟨rfl, rfl, rfl⟩

/-- C3 amended: on a backend failure the exception propagates uncaught — the
submission issues exactly one backend call, no credential re-entry prompt is
shown, no retry occurs, and the step and report fields are left unchanged. -/
theorem quota_failure_propagates
    (backend : String → Except BackendError String) (s : SessionState)
    (media_files : List String) (current_visit_details : String)
    (visit_date : Date) (e : BackendError)
    (hb : backend (submit_prompt s media_files current_visit_details
      visit_date) = Except.error e) :
    (current_visit_submit backend s media_files current_visit_details
      visit_date).2.length = 1 ∧
    (current_visit_submit backend s media_files current_visit_details
      visit_date).1.step = s.step ∧
    (current_visit_submit backend s media_files current_visit_details
      visit_date).1.report = s.report := by
  unfold submit_prompt at hb
  unfold current_visit_submit generate_journal_report
  dsimp only
  rw [hb]
  exact ⟨rfl, rfl, rfl⟩

/-- Witness for the amended C3 theorem at a concrete quota failure. -/
theorem quota_failure_propagates_witness :
    (current_visit_submit backend_quota sessionAtStep4 ["a.png"]
      "Held a health camp" sampleDate).2.length = 1 ∧
    (current_visit_submit backend_quota sessionAtStep4 ["a.png"]
      "Held a health camp" sampleDate).1.step = 4 ∧
    (current_visit_submit backend_quota sessionAtStep4 ["a.png"]
      "Held a health camp" sampleDate).1.report = none :=
  ⟨(quota_failure_propagates backend_quota sessionAtStep4 ["a.png"]
      "Held a health camp" sampleDate BackendError.quotaExceeded rfl).1,
   ((quota_failure_propagates backend_quota sessionAtStep4 ["a.png"]
      "Held a health camp" sampleDate BackendError.quotaExceeded rfl).2.1).trans
      rfl,
   ((quota_failure_propagates backend_quota sessionAtStep4 ["a.png"]
      "Held a health camp" sampleDate BackendError.quotaExceeded rfl).2.2).trans
      rfl⟩

/-- C4 counterexample: when extraction raises on a malformed upload, the
step 3 handler does not proceed — the exception escapes, the summary is not
set to empty and the wizard does not advance to step 4, contradicting the
claimed recovery. -/
theorem extraction_error_does_not_advance :
    previous_visit_submit extractor_fail summarize_id sessionAtStep3
      (some "BADPDF") = Except.error ExtractionError.malformed :=
  rfl

/-- C4 amended: if extraction raises, the error propagates uncaught and the
wizard neither records an empty summary nor advances; only when extraction
returns successfully with empty text is the prior context treated as absent
and the wizard advanced to step 4. -/
theorem extraction_error_propagates
    (extractor : String → Except ExtractionError String)
    (summarize : String → String) (s : SessionState) (pdf : String) :
    (∀ e, extractor pdf = Except.error e →
      previous_visit_submit extractor summarize s (some pdf) =
        Except.error e) ∧
    (extractor pdf = Except.ok "" →
      previous_visit_submit extractor summarize s (some pdf) =
        Except.ok { s with previous_report_summary := some "", step := 4 }) := by
  constructor
  · intro e he
    simp [previous_visit_submit, he]
  · intro he
    simp [previous_visit_submit, he]

/-- Witness for the amended C4 theorem: a failing extractor propagates its
error, an empty extraction advances with an empty summary. -/
theorem extraction_error_propagates_witness :
    previous_visit_submit extractor_fail summarize_id sessionAtStep3
      (some "x.pdf") = Except.error ExtractionError.malformed ∧
    previous_visit_submit extractor_empty summarize_id sessionAtStep3
      (some "x.pdf") = Except.ok
        { sessionAtStep3 with previous_report_summary := some "", step := 4 } :=
  ⟨(extraction_error_propagates extractor_fail summarize_id sessionAtStep3
      "x.pdf").1 ExtractionError.malformed rfl,
   (extraction_error_propagates extractor_empty summarize_id sessionAtStep3
      "x.pdf").2 rfl⟩

/-- C5: submitting step 2 with visit number "1st" advances directly to
step 4, never to the prior-upload step 3, and sets the previous-report
summary to the empty string. -/
theorem first_visit_skips_prior_upload (s : SessionState) (project : String) :
    (general_info_submit s project "1st").step = 4 ∧
    (general_info_submit s project "1st").previous_report_summary = some "" ∧
    (general_info_submit s project "1st").step ≠ 3 := by
  have h4 : (general_info_submit s project "1st").step = 4 := rfl
  exact ⟨h4, rfl, by rw [h4]; decide⟩

/-- C6: if the backend call of a step 4 submission fails, the session step
stays at 4 and the stored report is unchanged — the report is stored and the
step advanced only when generation fully succeeds. -/
theorem backend_failure_is_atomic
    (backend : String → Except BackendError String) (s : SessionState)
    (media_files : List String) (current_visit_details : String)
    (visit_date : Date) (e : BackendError) (hs : s.step = 4)
    (hb : backend (submit_prompt s media_files current_visit_details
      visit_date) = Except.error e) :
    (current_visit_submit backend s media_files current_visit_details
      visit_date).1.step = 4 ∧
    (current_visit_submit backend s media_files current_visit_details
      visit_date).1.report = s.report := by
  unfold submit_prompt at hb
  unfold current_visit_submit generate_journal_report
  dsimp only
  rw [hb]
  exact ⟨hs, rfl⟩

/-- Witness for the C6 theorem at a concrete quota failure. -/
theorem backend_failure_is_atomic_witness :
    (current_visit_submit backend_quota sessionAtStep4 [] "Planted saplings"
      sampleDate).1.step = 4 ∧
    (current_visit_submit backend_quota sessionAtStep4 [] "Planted saplings"
      sampleDate).1.report = none :=
  ⟨(backend_failure_is_atomic backend_quota sessionAtStep4 []
      "Planted saplings" sampleDate BackendError.quotaExceeded rfl rfl).1,
   ((backend_failure_is_atomic backend_quota sessionAtStep4 []
      "Planted saplings" sampleDate BackendError.quotaExceeded rfl rfl).2).trans
      rfl⟩

/-- C7: the Report Composer sends exactly one prompt to the backend — the
fixed template rendered with the given fields and the formatted date — and
returns the backend result unmodified; the date renders as YYYY-MM-DD when
present and as the literal fallback when absent. -/
theorem report_composer_contract
    (backend : String → Except BackendError String)
    (prev proj vn details ms : String) (vd : Option Date) :
    (generate_journal_report backend prev proj vn details ms vd).2 =
      [format_prompt prev proj vn details ms (date_str vd)] ∧
    (generate_journal_report backend prev proj vn details ms vd).1 =
      backend (format_prompt prev proj vn details ms (date_str vd)) ∧
    date_str (some { year := 2025, month := 4, day := 7 }) = "2025-04-07" ∧
    date_str none = "No date provided" :=
  ⟨rfl, rfl, by decide, rfl⟩

/-- C8: the step 5 download button offers the literal filename
journal_report.txt with MIME type text/plain and the report string itself
as content. -/
theorem download_artifact_contract (report : String) :
    (step5_download_button report).file_name = "journal_report.txt" ∧
    (step5_download_button report).mime = "text/plain" ∧
    (step5_download_button report).data = report :=
  ⟨rfl, rfl, rfl⟩

/-- C9: the Summarizer chunking is by fixed constants — chunk `i` is exactly
the `chunk_size` characters starting at position `chunk_step * i` of the
input (so chunks preserve order and consecutive chunks overlap by
`chunk_overlap` characters), every chunk has at most `chunk_size`
characters, and the constants are 2000 and 200.  Determinism is immediate:
the chunk sequence is a pure function of the input text. -/
theorem summarizer_chunking (pdf_text : String) (i : Nat)
    (hi : i < (split_text pdf_text).length) :
    (split_text pdf_text).getD i "" =
      String.mk ((pdf_text.toList.drop (chunk_step * i)).take chunk_size) ∧
    ((split_text pdf_text).getD i "").length ≤ chunk_size ∧
    chunk_size = 2000 ∧ chunk_overlap = 200 ∧
    chunk_step = chunk_size - chunk_overlap := by
  have hfuel : pdf_text.toList.length ≤
      chunk_step * pdf_text.toList.length + chunk_size := by
    simp only [chunk_step, chunk_size, chunk_overlap]
    omega
  have hi' : i < (splitTextFuel pdf_text.toList.length pdf_text.toList).length := by
    simpa [split_text, List.length_map] using hi
  have hget := splitTextFuel_getD pdf_text.toList.length pdf_text.toList
    hfuel i hi'
  have hmap : (split_text pdf_text).getD i "" =
      String.mk ((splitTextFuel pdf_text.toList.length pdf_text.toList).getD
        i []) := by
    simp only [split_text]
    rw [List.getD_eq_getElem _ _ (by simpa [split_text, List.length_map] using hi),
      List.getElem_map, List.getD_eq_getElem _ _ hi']
  refine ⟨?_, ?_, rfl, rfl, rfl⟩
  · rw [hmap, hget]
  · rw [hmap, hget]
    have hlen : (String.mk ((pdf_text.toList.drop (chunk_step * i)).take
        chunk_size)).length =
        ((pdf_text.toList.drop (chunk_step * i)).take chunk_size).length := rfl
    rw [hlen, List.length_take]
    exact Nat.min_le_left _ _

/-- Witness for the C9 theorem at a concrete two-character input. -/
theorem summarizer_chunking_witness :
    0 < (split_text "ab").length ∧
    (split_text "ab").getD 0 "" =
      String.mk (("ab".toList.drop (chunk_step * 0)).take chunk_size) ∧
    chunk_size = 2000 ∧ chunk_overlap = 200 :=
  ⟨by decide, (summarizer_chunking "ab" 0 (by decide)).1,
   (summarizer_chunking "ab" 0 (by decide)).2.2.1,
   (summarizer_chunking "ab" 0 (by decide)).2.2.2.1⟩

/-- C10: the media summary is never the empty string — with uploads it is
the fixed prefix followed by the comma-separated file names and a period,
without uploads it is the fixed sentence. -/
theorem media_summary_contract (media_files : List String) :
    mediaSummary media_files ≠ "" ∧
    (media_files ≠ [] → mediaSummary media_files =
      "Uploaded media files: " ++ String.intercalate ", " media_files ++ ".") ∧
    (media_files = [] → mediaSummary media_files =
      "No media files provided.") := by
  refine ⟨?_, ?_, ?_⟩
  · by_cases h : media_files = []
    · simp [mediaSummary, h]
    · simp only [mediaSummary, if_pos h]
      intro heq
      have hlen := congrArg String.length heq
      rw [String.length_append, String.length_append] at hlen
      have h1 : ("Uploaded media files: ").length = 22 := rfl
      have h2 : (".").length = 1 := rfl
      have h3 : ("").length = 0 := rfl
      omega
  · intro h
    simp [mediaSummary, h]
  · intro h
    simp [mediaSummary, h]

/-- Witness for the C10 theorem with a concrete upload list and the empty
list. -/
theorem media_summary_contract_witness :
    mediaSummary ["photo.png", "clip.mp4"] ≠ "" ∧
    mediaSummary ["photo.png", "clip.mp4"] =
      "Uploaded media files: photo.png, clip.mp4." ∧
    mediaSummary [] = "No media files provided." :=
  ⟨(media_summary_contract ["photo.png", "clip.mp4"]).1,
   ((media_summary_contract ["photo.png", "clip.mp4"]).2.1
      (by decide)).trans (by decide),
   (media_summary_contract []).2.2 rfl⟩

end KYReport
